import Mathlib

/-!
Shallow embedding of the dynmail email facade (src/dynmail/dynmail.ts,
src/provider/provider.ts) and theorems about its dispatch/resolution core.

Transport functions are modelled as pure functions from the normalized
send parameters to a result; the error type of the transports is a type
parameter `ε` throughout.
-/

set_option autoImplicit false

namespace Dynmail

/-- Modelled from the spec: the `Sender` value object. `src/sender/sender.ts`
is not among the sources (only its test is); per spec section 3 and
`sender.spec.ts`, a sender is an immutable named identity with an `id`
(defaulting to `"default"` at construction), a display `name` and an
`email` address. -/
structure Sender where
  id : String
  name : String
  email : String
deriving DecidableEq

/-- An address-valued field of a request: a single address or a list of
addresses (`string | string[]` in the source). -/
inductive Addr where
  | one (a : String)
  | many (l : List String)
deriving DecidableEq

/-- The `content` field of an attachment: `string | Buffer` in the source;
a buffer is modelled as its list of bytes. -/
inductive AttachmentContent where
  | str (s : String)
  | buffer (bytes : List Nat)
deriving DecidableEq

/-- The `Attachment` record from provider.ts: a filename plus optional content, path and
content type. -/
structure Attachment where
  filename : String
  content : Option AttachmentContent
  path : Option String
  contentType : Option String
deriving DecidableEq

/-- The runtime value of the `attachments` parameter. Besides being absent
(`undef`) or an array, at runtime it can also be a string: the type-level
attachment gate types the field as a literal error-message string when no
provider supports attachments, and dynmail.ts guards for exactly that with
`typeof params.attachments === 'string'`. -/
inductive AttachmentsField where
  | undef
  | str (s : String)
  | list (l : List Attachment)
deriving DecidableEq

/-- Modelled from the spec: the result shape `Result<void, E>` of `~/util`
(`util.ts` is not among the sources). Per spec section 3 and the uses in the
sources, it is a tagged union: `status: 'success'` with no payload, or
`status: 'failure'` carrying an error. -/
inductive DResult (ε : Type) where
  | success
  | failure (error : ε)
deriving DecidableEq

/-- The union of errors a dispatch can produce: the three resolution and
capability errors defined by the sources (`ProviderNotFoundError`,
`SenderNotFoundError`, `AttachmentNotSupportedByProviderError`, each
carrying the id it is constructed with), and provider-specific transport
errors surfaced verbatim (tagged here with `transport`). -/
inductive DynError (ε : Type) where
  | providerNotFound (providerId : String)
  | senderNotFound (senderId : String)
  | attachmentsNotSupported (providerId : String)
  | transport (error : ε)
deriving DecidableEq

/-- The `SendMailParams` record from provider.ts: the normalized parameters handed to a
provider's transport function. -/
structure SendMailParams where
  «from» : Sender
  «to» : Addr
  subject : String
  html : String
  text : Option String
  bcc : Option Addr
  cc : Option Addr
  replyTo : Option Addr
  headers : Option (List (String × String))
  attachments : AttachmentsField
deriving DecidableEq

/-- The `ProviderOptions` record from provider.ts: the capability descriptor. -/
structure ProviderOptions where
  supportsAttachments : Bool
deriving DecidableEq

/-- The `Provider` class from provider.ts: an id (default `"default"`), a
diagnostic provider-kind label, the capability options, and the transport
function. -/
structure Provider (ε : Type) where
  id : String
  provider : String
  options : ProviderOptions
  send : SendMailParams → DResult ε

/-- The `DynmailSendMailParams` record from dynmail.ts: the request accepted by the
generic `send` entry point. -/
structure DynmailSendMailParams where
  provider : Option String
  «from» : Option String
  «to» : Addr
  cc : Option Addr
  bcc : Option Addr
  subject : String
  body : String
  replyTo : Option Addr
  attachments : AttachmentsField
  headers : Option (List (String × String))
deriving DecidableEq

/-- Provider resolution (dynmail.ts lines 52-56):
`providers.find((p) => p.id === providerId) || providers[0]` where
`providerId = params.provider ?? 'default'`. -/
def resolveProvider {ε : Type} (requested : Option String)
    (providers : List (Provider ε)) : Option (Provider ε) :=
  let providerId := requested.getD "default"
  (providers.find? (fun p => p.id == providerId)).orElse (fun _ => providers.head?)

/-- Sender resolution (dynmail.ts lines 85-89):
`senders.find((s) => s.id === senderId) || senders[0]` where
`senderId = params.from ?? 'default'`. -/
def resolveSender (requested : Option String)
    (senders : List Sender) : Option Sender :=
  let senderId := requested.getD "default"
  (senders.find? (fun s => s.id == senderId)).orElse (fun _ => senders.head?)

/-- The capability guard of dynmail.ts lines 69-74:
`typeof params.attachments === 'string' || (!provider.options.supportsAttachments
&& Array.isArray(params.attachments) && params.attachments.length > 0)`. -/
def attachmentsRejected {ε : Type} (provider : Provider ε)
    (attachments : AttachmentsField) : Bool :=
  match attachments with
  | .str _ => true
  | .list l => !provider.options.supportsAttachments && decide (0 < l.length)
  | .undef => false

/-- The error branches of the inner `send` closure: in safe mode the error is
returned as a failure result, otherwise it is thrown (modelled as `.error`). -/
def failWith {ε : Type} (safe : Bool) (error : DynError ε) :
    Except (DynError ε) (DResult (DynError ε)) :=
  if safe then .ok (.failure error) else .error error

/-- The normalized parameter record built for the transport invocation
(dynmail.ts lines 102-112): `from` is the resolved sender, `html` is the
request's `body`, no `text` key is ever set, and the remaining fields are
passed through from the request unchanged. -/
def mkSendMailParams (sender : Sender) (params : DynmailSendMailParams) :
    SendMailParams :=
  { «from» := sender
    «to» := params.«to»
    html := params.body
    subject := params.subject
    bcc := params.bcc
    attachments := params.attachments
    cc := params.cc
    headers := params.headers
    replyTo := params.replyTo
    text := none }

/-- Embeds the transport's `Result<void, TError>` into the dispatch result,
surfacing the provider-specific error verbatim (tagged `transport`). -/
def mapTransport {ε : Type} : DResult ε → DResult (DynError ε)
  | .success => .success
  | .failure e => .failure (.transport e)

/-- The inner `send` closure of dynmail.ts lines 51-113, parameterized by the
facade's `safe` flag exactly as in the source: resolve the provider
(id match, else positional fallback), check the attachment capability,
resolve the sender, then invoke the transport. A thrown error is modelled
as `.error`, a returned result as `.ok`. -/
def sendInner {ε : Type} (safe : Bool) (providers : List (Provider ε))
    (senders : List Sender) (params : DynmailSendMailParams) :
    Except (DynError ε) (DResult (DynError ε)) :=
  let providerId := params.provider.getD "default"
  match resolveProvider params.provider providers with
  | none => failWith safe (DynError.providerNotFound providerId)
  | some provider =>
    if attachmentsRejected provider params.attachments then
      failWith safe (DynError.attachmentsNotSupported providerId)
    else
      let senderId := params.«from».getD "default"
      match resolveSender params.«from» senders with
      | none => failWith safe (DynError.senderNotFound senderId)
      | some sender =>
        .ok (mapTransport (provider.send (mkSendMailParams sender params)))

/-- The safe-mode client's `send` (dynmail.ts lines 115-118): it returns the
inner send's result directly. The inner send never throws when `safe` is
true (`sendInner_true_ne_error`), so the `.error` branch below is dead; it
only totalizes the function. -/
def safeSend {ε : Type} (providers : List (Provider ε)) (senders : List Sender)
    (params : DynmailSendMailParams) : DResult (DynError ε) :=
  match sendInner true providers senders params with
  | .ok res => res
  | .error e => .failure e

/-- The non-safe-mode client's `send` (dynmail.ts lines 161-168): await the
inner send and throw `result.error` when the returned result is a failure. -/
def unsafeSend {ε : Type} (providers : List (Provider ε)) (senders : List Sender)
    (params : DynmailSendMailParams) : Except (DynError ε) Unit :=
  match sendInner false providers senders params with
  | .error e => .error e
  | .ok (.failure e) => .error e
  | .ok .success => .ok ()

/-- What a dynamically generated client property binds to: a provider-bound
or a sender-bound send entry point. -/
inductive Binding where
  | provider (id : String)
  | sender (id : String)
deriving DecidableEq

/-- One dynamic property assignment `client[key] = b` (later assignments to
the same key overwrite earlier ones). -/
def addBinding (client : String → Option Binding) (key : String) (b : Binding) :
    String → Option Binding :=
  fun name => if name == key then some b else client name

/-- The dynamic property assignment loops of dynmail.ts (lines 120-157 in
safe mode, 170-215 otherwise; both run the same loops): first every
non-`"default"` provider id is bound to a provider-bound entry point, then
every non-`"default"` sender id is bound to a sender-bound entry point,
overwriting any provider binding with the same name. -/
def buildClient {ε : Type} (providers : List (Provider ε)) (senders : List Sender) :
    String → Option Binding :=
  let base : String → Option Binding := fun _ => none
  let withProviders := providers.foldl
    (fun c p => if p.id == "default" then c else addBinding c p.id (Binding.provider p.id))
    base
  senders.foldl
    (fun c s => if s.id == "default" then c else addBinding c s.id (Binding.sender s.id))
    withProviders

/-- Calling a bound entry point (dynmail.ts lines 125-140 and 148-156, and
their non-safe counterparts): the bound id is spread into the request as its
`provider` (resp. `from`) field and the inner send is invoked. -/
def callBinding {ε : Type} (safe : Bool) (providers : List (Provider ε))
    (senders : List Sender) (b : Binding) (params : DynmailSendMailParams) :
    Except (DynError ε) (DResult (DynError ε)) :=
  match b with
  | .provider p => sendInner safe providers senders { params with provider := some p }
  | .sender s => sendInner safe providers senders { params with «from» := some s }

/-- The duplicate-id scan of the type-level `FindDuplicateIDsOnProviders` /
`FindDuplicateIDsOnSenders` (dynmail.ts lines 410-431 and 464-471): walk the
list and report the first id that also appears strictly later in it. -/
def findDuplicateIDs : List String → Option String
  | [] => none
  | first :: rest => if first ∈ rest then some first else findDuplicateIDs rest

/-- The type-level `ValidateProviders` (dynmail.ts lines 393-408), evaluated
over the list of provider ids: an empty list and a list with duplicate ids
are rejected with the corresponding configuration error message. -/
def validateProviderIDs : List String → Except String Unit
  | [] => .error "❌ You must provide at least one provider."
  | [_] => .ok ()
  | a :: b :: t =>
    match findDuplicateIDs (a :: b :: t) with
    | none => .ok ()
    | some d => .error ("❌ Duplicate provider ID found: " ++ d)

/-- The type-level `ValidateSenders` (dynmail.ts lines 454-462), evaluated
over the list of sender ids. -/
def validateSenderIDs : List String → Except String Unit
  | [] => .error "❌ You must provide at least one sender."
  | [_] => .ok ()
  | a :: b :: t =>
    match findDuplicateIDs (a :: b :: t) with
    | none => .ok ()
    | some d => .error ("❌ Duplicate sender ID found: " ++ d)

/-- Facade construction: TypeScript first evaluates the compile-time
`ValidateProviders`/`ValidateSenders` checks on the argument's type (so a
duplicate id rejects the construction before any code runs), then the
`dynmail` function's runtime non-emptiness checks (dynmail.ts lines 35-49)
execute. Construction succeeds only when all of these pass; every rejection
happens before any send is attempted. -/
def dynmailConstruct {ε : Type} (providers : List (Provider ε))
    (senders : List Sender) : Except String Unit :=
  match validateProviderIDs (providers.map (·.id)) with
  | .error e => .error e
  | .ok _ =>
    match validateSenderIDs (senders.map (·.id)) with
    | .error e => .error e
    | .ok _ =>
      if providers.isEmpty then .error "❌ You must provide at least one provider."
      else if senders.isEmpty then .error "❌ You must provide at least one sender."
      else .ok ()

/-! ### Example configurations used by witnesses and counterexamples -/

/-- A provider with id `"a"` that supports attachments and always succeeds. -/
def exProviderA : Provider String :=
  { id := "a", provider := "kindA", options := { supportsAttachments := true },
    send := fun _ => .success }

/-- A provider with id `"default"` whose transport always fails with `"A"`. -/
def exProvDefault : Provider String :=
  { id := "default", provider := "kindD", options := { supportsAttachments := true },
    send := fun _ => .failure "A" }

/-- A provider with id `"x"` that supports attachments and always succeeds. -/
def exProviderX : Provider String :=
  { id := "x", provider := "kindX", options := { supportsAttachments := true },
    send := fun _ => .success }

/-- A provider with id `"a"` that does not support attachments. -/
def exProvNoAtt : Provider String :=
  { id := "a", provider := "kindA", options := { supportsAttachments := false },
    send := fun _ => .success }

/-- A sender with id `"s"`. -/
def exSenderS : Sender := { id := "s", name := "S", email := "s@example.com" }

/-- A sender with id `"default"`. -/
def exSenderDefault : Sender :=
  { id := "default", name := "D", email := "d@example.com" }

/-- A sender with id `"x"`. -/
def exSenderX : Sender := { id := "x", name := "X", email := "x@example.com" }

/-- A request with no provider and no sender id, no attachments. -/
def exReqPlain : DynmailSendMailParams :=
  { provider := none, «from» := none, «to» := .one "t@example.com", cc := none,
    bcc := none, subject := "hi", body := "<p>hi</p>", replyTo := none,
    attachments := .undef, headers := none }

/-- A single attachment. -/
def exAttachment : Attachment :=
  { filename := "f.txt", content := some (.str "hello"), path := none,
    contentType := some "text/plain" }

/-! ### Resolution lemmas -/

theorem resolveProvider_find_eq_none {ε : Type} {providers : List (Provider ε)}
    {q : String} (h : ∀ p ∈ providers, p.id ≠ q) :
    providers.find? (fun p => p.id == q) = none := by
  rw [List.find?_eq_none]
  intro p hp
  simpa using h p hp

theorem resolveSender_find_eq_none {senders : List Sender} {q : String}
    (h : ∀ s ∈ senders, s.id ≠ q) :
    senders.find? (fun s => s.id == q) = none := by
  rw [List.find?_eq_none]
  intro s hs
  simpa using h s hs

theorem resolveProvider_unknown {ε : Type} {providers : List (Provider ε)}
    {q : String} (h : ∀ p ∈ providers, p.id ≠ q) :
    resolveProvider (some q) providers = providers.head? := by
  simp only [resolveProvider, Option.getD_some]
  rw [resolveProvider_find_eq_none h]
  rfl

theorem resolveSender_unknown {senders : List Sender} {q : String}
    (h : ∀ s ∈ senders, s.id ≠ q) :
    resolveSender (some q) senders = senders.head? := by
  simp only [resolveSender, Option.getD_some]
  rw [resolveSender_find_eq_none h]
  rfl

theorem find?_default_provider {ε : Type} {providers : List (Provider ε)}
    {p : Provider ε} (hmem : p ∈ providers) (hid : p.id = "default")
    (hnd : (providers.map (·.id)).Nodup) :
    providers.find? (fun q => q.id == "default") = some p := by
  induction providers with
  | nil => cases hmem
  | cons a l ih =>
    rw [List.map_cons, List.nodup_cons] at hnd
    by_cases ha : a.id = "default"
    · rcases List.mem_cons.mp hmem with rfl | hmem'
      · exact List.find?_cons_of_pos _ (by simp [ha])
      · exact absurd (List.mem_map.mpr ⟨p, hmem', (hid.trans ha.symm)⟩) hnd.1
    · rcases List.mem_cons.mp hmem with rfl | hmem'
      · exact absurd hid ha
      · rw [List.find?_cons_of_neg _ (by simp [ha])]
        exact ih hmem' hnd.2

theorem find?_default_sender {senders : List Sender} {s : Sender}
    (hmem : s ∈ senders) (hid : s.id = "default")
    (hnd : (senders.map (·.id)).Nodup) :
    senders.find? (fun q => q.id == "default") = some s := by
  induction senders with
  | nil => cases hmem
  | cons a l ih =>
    rw [List.map_cons, List.nodup_cons] at hnd
    by_cases ha : a.id = "default"
    · rcases List.mem_cons.mp hmem with rfl | hmem'
      · exact List.find?_cons_of_pos _ (by simp [ha])
      · exact absurd (List.mem_map.mpr ⟨s, hmem', (hid.trans ha.symm)⟩) hnd.1
    · rcases List.mem_cons.mp hmem with rfl | hmem'
      · exact absurd hid ha
      · rw [List.find?_cons_of_neg _ (by simp [ha])]
        exact ih hmem' hnd.2

/-! ### C6: default resolution -/

/-- C6: in every configuration in which some provider (or sender) has id
`"default"` (ids being pairwise unique, as configuration validation
guarantees), a request omitting the `provider` (or `from`) field resolves to
exactly that adapter (or sender), never to the positional first element. -/
theorem C6_default_resolution {ε : Type} (providers : List (Provider ε))
    (senders : List Sender) (p : Provider ε) (s : Sender) :
    (p ∈ providers → p.id = "default" → (providers.map (·.id)).Nodup →
      resolveProvider none providers = some p) ∧
    (s ∈ senders → s.id = "default" → (senders.map (·.id)).Nodup →
      resolveSender none senders = some s) := by
  constructor
  · intro hmem hid hnd
    simp only [resolveProvider, Option.getD_none]
    rw [find?_default_provider hmem hid hnd]
    rfl
  · intro hmem hid hnd
    simp only [resolveSender, Option.getD_none]
    rw [find?_default_sender hmem hid hnd]
    rfl

/-- Witness for C6: in the configuration `[exProvDefault, exProviderA]` /
`[exSenderDefault, exSenderS]`, an id-less request resolves to the
`"default"`-id provider and sender (not to some other positional entry). -/
theorem C6_default_resolution_witness :
    resolveProvider (ε := String) none [exProvDefault, exProviderA] = some exProvDefault ∧
    resolveSender none [exSenderDefault, exSenderS] = some exSenderDefault :=
  ⟨(C6_default_resolution [exProvDefault, exProviderA] [exSenderDefault, exSenderS]
      exProvDefault exSenderDefault).1 (by simp) rfl (by decide),
   (C6_default_resolution [exProvDefault, exProviderA] [exSenderDefault, exSenderS]
      exProvDefault exSenderDefault).2 (by simp) rfl (by decide)⟩

/-! ### C7: positional fallback -/

/-- C7: in every configuration whose provider list (or sender list) contains
no entry with id `"default"`, a request omitting the `provider` (or `from`)
field resolves to the first entry of the configured list. -/
theorem C7_positional_fallback {ε : Type} (providers : List (Provider ε))
    (senders : List Sender) :
    (∀ p rest, providers = p :: rest → (∀ q ∈ providers, q.id ≠ "default") →
      resolveProvider none providers = some p) ∧
    (∀ s rest, senders = s :: rest → (∀ q ∈ senders, q.id ≠ "default") →
      resolveSender none senders = some s) := by
  constructor
  · rintro p rest rfl h
    simp only [resolveProvider, Option.getD_none]
    rw [resolveProvider_find_eq_none h]
    rfl
  · rintro s rest rfl h
    simp only [resolveSender, Option.getD_none]
    rw [resolveSender_find_eq_none h]
    rfl

/-- Witness for C7: with providers `[exProviderA, exProviderX]` and senders
`[exSenderS]` (none of which has id `"default"`), an id-less request
resolves to the first configured entry. -/
theorem C7_positional_fallback_witness :
    resolveProvider (ε := String) none [exProviderA, exProviderX] = some exProviderA ∧
    resolveSender none [exSenderS] = some exSenderS :=
  ⟨(C7_positional_fallback [exProviderA, exProviderX] [exSenderS]).1
      exProviderA [exProviderX] rfl (by decide),
   (C7_positional_fallback [exProviderA, exProviderX] [exSenderS]).2
      exSenderS [] rfl (by decide)⟩

/-! ### Shape lemmas for the dispatch core -/

theorem resolveProvider_isSome {ε : Type} {providers : List (Provider ε)}
    (h : providers ≠ []) (req : Option String) :
    ∃ q, resolveProvider req providers = some q := by
  match providers, h with
  | p :: rest, _ =>
    simp only [resolveProvider]
    cases hf : List.find? (fun a => a.id == req.getD "default") (p :: rest) with
    | some q => exact ⟨q, by simp [Option.orElse, hf]⟩
    | none => exact ⟨p, by simp [Option.orElse, hf]⟩

theorem resolveSender_isSome {senders : List Sender}
    (h : senders ≠ []) (req : Option String) :
    ∃ q, resolveSender req senders = some q := by
  match senders, h with
  | s :: rest, _ =>
    simp only [resolveSender]
    cases hf : List.find? (fun a => a.id == req.getD "default") (s :: rest) with
    | some q => exact ⟨q, by simp [Option.orElse, hf]⟩
    | none => exact ⟨s, by simp [Option.orElse, hf]⟩

/-- The inner send never throws when `safe` is true: every error branch
returns a failure result instead. -/
theorem sendInner_true_ne_error {ε : Type} (providers : List (Provider ε))
    (senders : List Sender) (params : DynmailSendMailParams) (e : DynError ε) :
    sendInner true providers senders params ≠ .error e := by
  simp only [sendInner]
  cases hps : resolveProvider params.provider providers with
  | none => simp [failWith]
  | some p =>
    by_cases hc : attachmentsRejected p params.attachments
    · simp [hc, failWith]
    · simp only [hc, Bool.false_eq_true, if_false]
      cases hss : resolveSender params.«from» senders with
      | none => simp [failWith]
      | some s => simp

/-- The non-safe-mode send is fully determined by the safe-mode send result:
it returns normally exactly on success and throws the carried error exactly
on failure. -/
theorem unsafeSend_eq_safeSend {ε : Type} (providers : List (Provider ε))
    (senders : List Sender) (params : DynmailSendMailParams) :
    unsafeSend providers senders params =
      match safeSend providers senders params with
      | .failure e => .error e
      | .success => .ok () := by
  simp only [unsafeSend, safeSend, sendInner]
  cases hps : resolveProvider params.provider providers with
  | none => simp [failWith]
  | some p =>
    by_cases hc : attachmentsRejected p params.attachments
    · simp [hc, failWith]
    · simp only [hc, Bool.false_eq_true, if_false]
      cases hss : resolveSender params.«from» senders with
      | none => simp [failWith]
      | some s =>
        cases hsend : p.send (mkSendMailParams s params) <;> simp [mapTransport, hsend]

/-! ### C3: mode symmetry -/

/-- C3: for a fixed configuration and request, the safe-mode facade's `send`
returns a failure carrying error `E` if and only if the non-safe-mode
facade's `send` on the same request throws an error structurally equal to
`E`, and the safe-mode send returns success if and only if the non-safe-mode
send returns normally with no payload. -/
theorem C3_mode_symmetry {ε : Type} (providers : List (Provider ε))
    (senders : List Sender) (params : DynmailSendMailParams) :
    (∀ e, safeSend providers senders params = .failure e ↔
       unsafeSend providers senders params = .error e) ∧
    (safeSend providers senders params = .success ↔
       unsafeSend providers senders params = .ok ()) := by
  rw [unsafeSend_eq_safeSend providers senders params]
  constructor
  · intro e
    cases hs : safeSend providers senders params <;> simp
  · cases hs : safeSend providers senders params <;> simp

/-- Witness for C3: at a concrete configuration whose default provider's
transport fails with `"A"`, the safe-mode failure result and the non-safe
thrown fault coincide on the same transport error. -/
theorem C3_mode_symmetry_witness :
    safeSend [exProvDefault] [exSenderS] exReqPlain =
        .failure (.transport "A") ↔
      unsafeSend [exProvDefault] [exSenderS] exReqPlain =
        .error (.transport "A") :=
  (C3_mode_symmetry [exProvDefault] [exSenderS] exReqPlain).1 (.transport "A")

/-! ### C8: non-emptiness makes the not-found branches unreachable -/

/-- C8: whenever the providers and senders lists are non-empty (the
construction-time invariant), the `ProviderNotFound` and `SenderNotFound`
branches of `send` are unreachable: the find-by-id-then-first-element lookup
always yields an element, so safe-mode `send` only ever returns the
transport's result or an `AttachmentsNotSupported` failure. -/
theorem C8_notfound_unreachable {ε : Type} (providers : List (Provider ε))
    (senders : List Sender) (params : DynmailSendMailParams)
    (hp : providers ≠ []) (hs : senders ≠ []) :
    (∀ i, safeSend providers senders params ≠ .failure (.providerNotFound i) ∧
       safeSend providers senders params ≠ .failure (.senderNotFound i)) ∧
    (safeSend providers senders params =
        .failure (.attachmentsNotSupported (params.provider.getD "default")) ∨
      ∃ p s, resolveProvider params.provider providers = some p ∧
        resolveSender params.«from» senders = some s ∧
        safeSend providers senders params =
          mapTransport (p.send (mkSendMailParams s params))) := by
  obtain ⟨p, hps⟩ := resolveProvider_isSome hp params.provider
  obtain ⟨s, hss⟩ := resolveSender_isSome hs params.«from»
  have hcore : safeSend providers senders params =
      if attachmentsRejected p params.attachments then
        DResult.failure (.attachmentsNotSupported (params.provider.getD "default"))
      else mapTransport (p.send (mkSendMailParams s params)) := by
    simp only [safeSend, sendInner, hps, hss]
    by_cases hc : attachmentsRejected p params.attachments
    · simp [hc, failWith]
    · simp [hc]
  constructor
  · intro i
    rw [hcore]
    constructor <;>
    · split
      · simp
      · cases hsend : p.send (mkSendMailParams s params) <;> simp [mapTransport, hsend]
  · rw [hcore]
    split
    · exact Or.inl rfl
    · exact Or.inr ⟨p, s, hps, hss, rfl⟩

/-- Witness for C8: with non-empty configuration `[exProviderA]` /
`[exSenderS]`, the safe-mode send of a plain request is neither a
`ProviderNotFound` nor a `SenderNotFound` failure. -/
theorem C8_notfound_unreachable_witness :
    safeSend [exProviderA] [exSenderS] exReqPlain ≠
      .failure (.providerNotFound "q") ∧
    safeSend [exProviderA] [exSenderS] exReqPlain ≠
      .failure (.senderNotFound "q") :=
  (C8_notfound_unreachable [exProviderA] [exSenderS] exReqPlain
    (by simp) (by simp)).1 "q"

/-! ### C10: transport parameter construction -/

/-- C10: for every request that reaches the transport invocation (provider
resolved, capability check passed, sender resolved), dispatch passes the
request's `body` as the transport parameter `html` and never populates
`text`, while `to`, `subject`, `cc`, `bcc`, `replyTo`, `headers` and
`attachments` are passed through unchanged and `from` is replaced by the
resolved `Sender` object. -/
theorem C10_transport_params {ε : Type} (providers : List (Provider ε))
    (senders : List Sender) (params : DynmailSendMailParams)
    (p : Provider ε) (s : Sender)
    (hps : resolveProvider params.provider providers = some p)
    (hcap : attachmentsRejected p params.attachments = false)
    (hss : resolveSender params.«from» senders = some s) :
    (∀ safe, sendInner safe providers senders params =
       .ok (mapTransport (p.send (mkSendMailParams s params)))) ∧
    (mkSendMailParams s params).html = params.body ∧
    (mkSendMailParams s params).text = none ∧
    (mkSendMailParams s params).«from» = s ∧
    (mkSendMailParams s params).«to» = params.«to» ∧
    (mkSendMailParams s params).subject = params.subject ∧
    (mkSendMailParams s params).cc = params.cc ∧
    (mkSendMailParams s params).bcc = params.bcc ∧
    (mkSendMailParams s params).replyTo = params.replyTo ∧
    (mkSendMailParams s params).headers = params.headers ∧
    (mkSendMailParams s params).attachments = params.attachments := by
  refine ⟨?_, rfl, rfl, rfl, rfl, rfl, rfl, rfl, rfl, rfl, rfl⟩
  intro safe
  simp [sendInner, hps, hcap, hss]

/-- Witness for C10: the concrete plain request against `[exProviderA]` /
`[exSenderS]` reaches the transport with the normalized parameters, whose
`text` is `none` and whose `html` is the request's `body`. -/
theorem C10_transport_params_witness :
    sendInner true [exProviderA] [exSenderS] exReqPlain =
      .ok (mapTransport (exProviderA.send (mkSendMailParams exSenderS exReqPlain))) ∧
    (mkSendMailParams exSenderS exReqPlain).text = none ∧
    (mkSendMailParams exSenderS exReqPlain).html = exReqPlain.body :=
  ⟨(C10_transport_params [exProviderA] [exSenderS] exReqPlain exProviderA exSenderS
      rfl rfl rfl).1 true,
   (C10_transport_params [exProviderA] [exSenderS] exReqPlain exProviderA exSenderS
      rfl rfl rfl).2.2.1,
   (C10_transport_params [exProviderA] [exSenderS] exReqPlain exProviderA exSenderS
      rfl rfl rfl).2.1⟩

/-! ### C2: duplicate-id validation -/

theorem findDuplicateIDs_eq_none_iff (l : List String) :
    findDuplicateIDs l = none ↔ l.Nodup := by
  induction l with
  | nil => simp [findDuplicateIDs]
  | cons first rest ih =>
    by_cases h : first ∈ rest
    · simp [findDuplicateIDs, h]
    · simp [findDuplicateIDs, h, ih]

/-- The id reported by the duplicate scan is the first one in the list that
also appears strictly later in the list. -/
theorem findDuplicateIDs_spec (l : List String) (d : String)
    (h : findDuplicateIDs l = some d) :
    ∃ i, l.get? i = some d ∧ d ∈ l.drop (i + 1) ∧
      ∀ k < i, ∀ x, l.get? k = some x → x ∉ l.drop (k + 1) := by
  induction l with
  | nil => simp [findDuplicateIDs] at h
  | cons first rest ih =>
    by_cases hm : first ∈ rest
    · rw [findDuplicateIDs, if_pos hm] at h
      obtain rfl : first = d := by injection h
      exact ⟨0, by simp, by simpa using hm, fun k hk => absurd hk (Nat.not_lt_zero k)⟩
    · rw [findDuplicateIDs, if_neg hm] at h
      obtain ⟨i, h1, h2, h3⟩ := ih h
      refine ⟨i + 1, by simpa using h1, by simpa using h2, ?_⟩
      intro k hk x hx
      cases k with
      | zero =>
        obtain rfl : first = x := by simpa using hx
        simpa using hm
      | succ j =>
        have hj : j < i := Nat.lt_of_succ_lt_succ hk
        intro hmem
        exact h3 j hj x (by simpa using hx) (by simpa using hmem)

theorem validateProviderIDs_ok_of_nodup {l : List String}
    (hne : l ≠ []) (h : l.Nodup) : validateProviderIDs l = .ok () := by
  match l, hne with
  | [x], _ => rfl
  | a :: b :: t, _ =>
    rw [validateProviderIDs, (findDuplicateIDs_eq_none_iff (a :: b :: t)).mpr h]

theorem validateProviderIDs_error_of_dup {l : List String}
    (h : ¬ l.Nodup) :
    ∃ d, findDuplicateIDs l = some d ∧
      validateProviderIDs l = .error ("❌ Duplicate provider ID found: " ++ d) := by
  match l with
  | [] => exact absurd List.nodup_nil h
  | [x] => exact absurd (List.nodup_singleton x) h
  | a :: b :: t =>
    cases hf : findDuplicateIDs (a :: b :: t) with
    | none => exact absurd ((findDuplicateIDs_eq_none_iff _).mp hf) h
    | some d => exact ⟨d, rfl, by rw [validateProviderIDs, hf]⟩

theorem validateSenderIDs_error_of_dup {l : List String}
    (h : ¬ l.Nodup) :
    ∃ d, findDuplicateIDs l = some d ∧
      validateSenderIDs l = .error ("❌ Duplicate sender ID found: " ++ d) := by
  match l with
  | [] => exact absurd List.nodup_nil h
  | [x] => exact absurd (List.nodup_singleton x) h
  | a :: b :: t =>
    cases hf : findDuplicateIDs (a :: b :: t) with
    | none => exact absurd ((findDuplicateIDs_eq_none_iff _).mp hf) h
    | some d => exact ⟨d, rfl, by rw [validateSenderIDs, hf]⟩

/-- C2: constructing the facade with two providers sharing an id is rejected
at construction time (the ValidateProviders check evaluated before any send
is attempted), naming the first id that has a later duplicate in the list;
symmetrically for senders (given a valid, non-empty provider list, since
providers are checked first). -/
theorem C2_duplicate_rejected {ε : Type} (providers : List (Provider ε))
    (senders : List Sender) :
    (¬ (providers.map (·.id)).Nodup →
      ∃ d, dynmailConstruct providers senders =
          .error ("❌ Duplicate provider ID found: " ++ d) ∧
        ∃ i, (providers.map (·.id)).get? i = some d ∧
          d ∈ (providers.map (·.id)).drop (i + 1) ∧
          ∀ k < i, ∀ x, (providers.map (·.id)).get? k = some x →
            x ∉ (providers.map (·.id)).drop (k + 1)) ∧
    (providers ≠ [] → (providers.map (·.id)).Nodup →
      ¬ (senders.map (·.id)).Nodup →
      ∃ d, dynmailConstruct providers senders =
          .error ("❌ Duplicate sender ID found: " ++ d) ∧
        ∃ i, (senders.map (·.id)).get? i = some d ∧
          d ∈ (senders.map (·.id)).drop (i + 1) ∧
          ∀ k < i, ∀ x, (senders.map (·.id)).get? k = some x →
            x ∉ (senders.map (·.id)).drop (k + 1)) := by
  constructor
  · intro hdup
    obtain ⟨d, hfd, hv⟩ := validateProviderIDs_error_of_dup hdup
    refine ⟨d, ?_, findDuplicateIDs_spec _ _ hfd⟩
    simp [dynmailConstruct, hv]
  · intro hne hnd hdup
    have hmapne : providers.map (·.id) ≠ [] := by
      simpa using hne
    have hvp := validateProviderIDs_ok_of_nodup hmapne hnd
    obtain ⟨d, hfd, hv⟩ := validateSenderIDs_error_of_dup hdup
    refine ⟨d, ?_, findDuplicateIDs_spec _ _ hfd⟩
    simp [dynmailConstruct, hvp, hv]

/-- Witness for C2: two providers both with id `"a"` are rejected with a
configuration error naming `"a"`; two senders both with id `"s"` are
rejected with a configuration error naming `"s"`. -/
theorem C2_duplicate_rejected_witness :
    (∃ d, dynmailConstruct (ε := String) [exProviderA, exProvNoAtt] [exSenderS] =
      .error ("❌ Duplicate provider ID found: " ++ d)) ∧
    (∃ d, dynmailConstruct (ε := String) [exProviderA] [exSenderS, exSenderS] =
      .error ("❌ Duplicate sender ID found: " ++ d)) := by
  constructor
  · obtain ⟨d, hd, -⟩ :=
      (C2_duplicate_rejected [exProviderA, exProvNoAtt] [exSenderS]).1 (by decide)
    exact ⟨d, hd⟩
  · obtain ⟨d, hd, -⟩ :=
      (C2_duplicate_rejected [exProviderA] [exSenderS, exSenderS]).2
        (by simp) (by decide) (by decide)
    exact ⟨d, hd⟩

/-! ### Client-surface lemmas: the dynamic property assignment loops -/

theorem providerFold_apply_of_not_mem {ε : Type} (providers : List (Provider ε))
    (c : String → Option Binding) (x : String) (hx : ∀ p ∈ providers, p.id ≠ x) :
    (providers.foldl (fun c p => if p.id == "default" then c
      else addBinding c p.id (Binding.provider p.id)) c) x = c x := by
  induction providers generalizing c with
  | nil => rfl
  | cons a l ih =>
    rw [List.foldl_cons, ih _ (fun p hp => hx p (List.mem_cons_of_mem a hp))]
    by_cases ha : (a.id == "default") = true
    · rw [if_pos ha]
    · rw [if_neg ha]
      have hne : (x == a.id) = false := by
        simpa using fun h => hx a (List.mem_cons_self a l) h.symm
      simp [addBinding, hne]

theorem senderFold_apply_of_not_mem (senders : List Sender)
    (c : String → Option Binding) (x : String) (hx : ∀ s ∈ senders, s.id ≠ x) :
    (senders.foldl (fun c s => if s.id == "default" then c
      else addBinding c s.id (Binding.sender s.id)) c) x = c x := by
  induction senders generalizing c with
  | nil => rfl
  | cons a l ih =>
    rw [List.foldl_cons, ih _ (fun s hs => hx s (List.mem_cons_of_mem a hs))]
    by_cases ha : (a.id == "default") = true
    · rw [if_pos ha]
    · rw [if_neg ha]
      have hne : (x == a.id) = false := by
        simpa using fun h => hx a (List.mem_cons_self a l) h.symm
      simp [addBinding, hne]

theorem providerFold_apply_of_mem {ε : Type} (providers : List (Provider ε))
    (c : String → Option Binding) (x : String) (hxd : x ≠ "default")
    (hx : ∃ p ∈ providers, p.id = x) :
    (providers.foldl (fun c p => if p.id == "default" then c
      else addBinding c p.id (Binding.provider p.id)) c) x =
      some (Binding.provider x) := by
  induction providers generalizing c with
  | nil => obtain ⟨p, hp, -⟩ := hx; cases hp
  | cons a l ih =>
    rw [List.foldl_cons]
    by_cases hl : ∃ p ∈ l, p.id = x
    · exact ih _ hl
    · obtain ⟨p, hp, hpid⟩ := hx
      rcases List.mem_cons.mp hp with rfl | hpl
      · rw [providerFold_apply_of_not_mem l _ x (fun q hq hqx => hl ⟨q, hq, hqx⟩)]
        rw [if_neg (by simp [hpid, hxd])]
        simp [addBinding, hpid]
      · exact absurd ⟨p, hpl, hpid⟩ hl

theorem senderFold_apply_of_mem (senders : List Sender)
    (c : String → Option Binding) (x : String) (hxd : x ≠ "default")
    (hx : ∃ s ∈ senders, s.id = x) :
    (senders.foldl (fun c s => if s.id == "default" then c
      else addBinding c s.id (Binding.sender s.id)) c) x =
      some (Binding.sender x) := by
  induction senders generalizing c with
  | nil => obtain ⟨s, hs, -⟩ := hx; cases hs
  | cons a l ih =>
    rw [List.foldl_cons]
    by_cases hl : ∃ s ∈ l, s.id = x
    · exact ih _ hl
    · obtain ⟨s, hs, hsid⟩ := hx
      rcases List.mem_cons.mp hs with rfl | hsl
      · rw [senderFold_apply_of_not_mem l _ x (fun q hq hqx => hl ⟨q, hq, hqx⟩)]
        rw [if_neg (by simp [hsid, hxd])]
        simp [addBinding, hsid]
      · exact absurd ⟨s, hsl, hsid⟩ hl

/-- A non-default sender id always ends up bound to the sender entry point:
the sender loop runs last and overwrites. -/
theorem buildClient_eq_sender {ε : Type} (providers : List (Provider ε))
    (senders : List Sender) (x : String) (hxd : x ≠ "default")
    (hx : ∃ s ∈ senders, s.id = x) :
    buildClient providers senders x = some (Binding.sender x) := by
  simp only [buildClient]
  exact senderFold_apply_of_mem senders _ x hxd hx

/-- A non-default provider id used by no sender is bound to the provider
entry point. -/
theorem buildClient_eq_provider {ε : Type} (providers : List (Provider ε))
    (senders : List Sender) (x : String) (hxd : x ≠ "default")
    (hx : ∃ p ∈ providers, p.id = x) (hs : ∀ s ∈ senders, s.id ≠ x) :
    buildClient providers senders x = some (Binding.provider x) := by
  simp only [buildClient]
  rw [senderFold_apply_of_not_mem senders _ x hs]
  exact providerFold_apply_of_mem providers _ x hxd hx

/-! ### C9: sender bindings overwrite provider bindings -/

/-- C9: in every configuration in which a non-default sender id equals a
non-default provider id, the facade exposes exactly one bound entry point
under that name, and it binds the sender (pre-filling `from`): the sender
loop runs after the provider loop and overwrites the provider's binding. -/
theorem C9_sender_overwrites_provider {ε : Type} (providers : List (Provider ε))
    (senders : List Sender) (x : String) (hxd : x ≠ "default")
    (_hp : x ∈ providers.map (·.id)) (hs : x ∈ senders.map (·.id)) :
    buildClient providers senders x = some (Binding.sender x) ∧
    ∀ safe params, callBinding safe providers senders (Binding.sender x) params =
      sendInner safe providers senders { params with «from» := some x } := by
  refine ⟨?_, fun safe params => rfl⟩
  obtain ⟨s, hsmem, hsid⟩ := List.mem_map.mp hs
  exact buildClient_eq_sender providers senders x hxd ⟨s, hsmem, hsid⟩

/-- Witness for C9: `"x"` is both a provider id and a sender id; the single
entry point named `"x"` binds the sender. -/
theorem C9_sender_overwrites_provider_witness :
    buildClient [exProvDefault, exProviderX] [exSenderDefault, exSenderX] "x" =
      some (Binding.sender "x") :=
  (C9_sender_overwrites_provider [exProvDefault, exProviderX]
    [exSenderDefault, exSenderX] "x" (by decide)
    (by simp [exProvDefault, exProviderX])
    (by simp [exSenderDefault, exSenderX])).1

/-! ### C5: bound entry-point equivalence (corrected) -/

/-- Counterexample to C5 as stated: with providers
`[exProvDefault, exProviderX]` and senders `[exSenderDefault, exSenderX]`,
the id `"x"` is a non-default provider id, yet the bound entry point named
`"x"` binds the sender (the sender loop overwrote it), and calling it with a
provider-less, sender-less request is observably different from the generic
send with `provider = "x"`: the former dispatches through the default
provider (whose transport fails with `"A"`) while the latter dispatches
through provider `"x"` (whose transport succeeds). -/
theorem C5_counterexample :
    ("x" ∈ ([exProvDefault, exProviderX].map (·.id))) ∧
    buildClient [exProvDefault, exProviderX] [exSenderDefault, exSenderX] "x" =
      some (Binding.sender "x") ∧
    callBinding true [exProvDefault, exProviderX] [exSenderDefault, exSenderX]
      (Binding.sender "x") exReqPlain = .ok (.failure (.transport "A")) ∧
    sendInner true [exProvDefault, exProviderX] [exSenderDefault, exSenderX]
      { exReqPlain with provider := some "x" } = .ok .success ∧
    (Except.ok (DResult.failure (DynError.transport "A")) :
        Except (DynError String) (DResult (DynError String))) ≠ .ok .success := by
  refine ⟨by simp [exProvDefault, exProviderX], ?_, rfl, rfl, by simp⟩
  exact buildClient_eq_sender _ _ _ (by decide) ⟨exSenderX, by simp, rfl⟩

/-- C5 (amended): for every non-default provider id `p` that no configured
sender uses as its id, the facade's entry point named `p` binds the
provider, and calling it with a request lacking the `provider` field is
identical to calling the generic `send` with that request extended by
`provider = p`; for every non-default sender id `s`, the entry point named
`s` binds the sender and calling it with a request lacking the `from` field
is identical to generic `send` with `from = s` (when a sender id collides
with a provider id, only the sender equivalence holds, cf. C9). -/
theorem C5_bound_entry_equivalence {ε : Type} (providers : List (Provider ε))
    (senders : List Sender) (p s : String) :
    (p ≠ "default" → p ∈ providers.map (·.id) → (∀ t ∈ senders, t.id ≠ p) →
      buildClient providers senders p = some (Binding.provider p) ∧
      ∀ safe params, params.provider = none →
        callBinding safe providers senders (Binding.provider p) params =
          sendInner safe providers senders { params with provider := some p }) ∧
    (s ≠ "default" → s ∈ senders.map (·.id) →
      buildClient providers senders s = some (Binding.sender s) ∧
      ∀ safe params, params.«from» = none →
        callBinding safe providers senders (Binding.sender s) params =
          sendInner safe providers senders { params with «from» := some s }) := by
  constructor
  · intro hpd hpmem hpns
    obtain ⟨q, hq, hqid⟩ := List.mem_map.mp hpmem
    exact ⟨buildClient_eq_provider providers senders p hpd ⟨q, hq, hqid⟩ hpns,
      fun safe params _ => rfl⟩
  · intro hsd hsmem
    obtain ⟨t, ht, htid⟩ := List.mem_map.mp hsmem
    exact ⟨buildClient_eq_sender providers senders s hsd ⟨t, ht, htid⟩,
      fun safe params _ => rfl⟩

/-- Witness for C5 (amended): with providers `[exProvDefault, exProviderX]`
and senders `[exSenderDefault]`, the entry point named `"x"` binds provider
`"x"` and calling it equals the generic send with `provider = "x"`;
with senders `[exSenderDefault, exSenderX]` and providers `[exProvDefault]`,
the entry point named `"x"` binds sender `"x"`. -/
theorem C5_bound_entry_equivalence_witness :
    (buildClient (ε := String) [exProvDefault, exProviderX] [exSenderDefault] "x" =
        some (Binding.provider "x") ∧
      callBinding true [exProvDefault, exProviderX] [exSenderDefault]
          (Binding.provider "x") exReqPlain =
        sendInner true [exProvDefault, exProviderX] [exSenderDefault]
          { exReqPlain with provider := some "x" }) ∧
    (buildClient (ε := String) [exProvDefault] [exSenderDefault, exSenderX] "x" =
        some (Binding.sender "x") ∧
      callBinding true [exProvDefault] [exSenderDefault, exSenderX]
          (Binding.sender "x") exReqPlain =
        sendInner true [exProvDefault] [exSenderDefault, exSenderX]
          { exReqPlain with «from» := some "x" }) := by
  constructor
  · obtain ⟨h1, h2⟩ :=
      (C5_bound_entry_equivalence [exProvDefault, exProviderX] [exSenderDefault]
        "x" "x").1 (by decide) (by simp [exProvDefault, exProviderX])
        (by simp [exSenderDefault])
    exact ⟨h1, h2 true exReqPlain rfl⟩
  · obtain ⟨h1, h2⟩ :=
      (C5_bound_entry_equivalence [exProvDefault] [exSenderDefault, exSenderX]
        "x" "x").2 (by decide) (by simp [exSenderDefault, exSenderX])
    exact ⟨h1, h2 true exReqPlain rfl⟩

/-! ### C1: unknown requested ids (corrected) -/

/-- A request naming the provider id `"zzz"`, which no configuration below
contains. -/
def exReqUnknownProv : DynmailSendMailParams :=
  { exReqPlain with provider := some "zzz" }

/-- A request naming the sender id `"qq"`, which no configuration below
contains. -/
def exReqUnknownFrom : DynmailSendMailParams :=
  { exReqPlain with «from» := some "qq" }

/-- Counterexample to C1 as stated: against the non-empty configuration
`[exProviderA]` / `[exSenderS]`, a request whose `provider` field is the
unknown id `"zzz"` does not yield a `ProviderNotFound` failure in safe mode
(nor a fault in non-safe mode): the lookup falls back to `providers[0]` and
the send silently dispatches through provider `"a"`, succeeding. -/
theorem C1_counterexample :
    exReqUnknownProv.provider = some "zzz" ∧
    exProviderA.id ≠ "zzz" ∧
    safeSend [exProviderA] [exSenderS] exReqUnknownProv = .success ∧
    unsafeSend [exProviderA] [exSenderS] exReqUnknownProv = .ok () :=
  ⟨rfl, by decide, rfl, rfl⟩

/-- C1 (amended): a request naming an unknown provider (or sender) id falls
back silently to the first configured provider (or sender) whenever the
corresponding list is non-empty; `ProviderNotFound` (or `SenderNotFound`)
arises only when the corresponding configured list is empty, as a failure
value in safe mode and as the equivalent raised fault in non-safe mode. -/
theorem C1_unknown_id_behaviour {ε : Type} (providers : List (Provider ε))
    (senders : List Sender) (params : DynmailSendMailParams) (q : String) :
    (params.provider = some q → (∀ p ∈ providers, p.id ≠ q) →
      resolveProvider params.provider providers = providers.head?) ∧
    (params.«from» = some q → (∀ s ∈ senders, s.id ≠ q) →
      resolveSender params.«from» senders = senders.head?) ∧
    (providers = [] →
      safeSend providers senders params =
        .failure (.providerNotFound (params.provider.getD "default")) ∧
      unsafeSend providers senders params =
        .error (.providerNotFound (params.provider.getD "default"))) ∧
    (∀ p, resolveProvider params.provider providers = some p →
      attachmentsRejected p params.attachments = false →
      senders = [] →
      safeSend providers senders params =
        .failure (.senderNotFound (params.«from».getD "default")) ∧
      unsafeSend providers senders params =
        .error (.senderNotFound (params.«from».getD "default"))) := by
  refine ⟨?_, ?_, ?_, ?_⟩
  · intro hq h
    rw [hq]
    exact resolveProvider_unknown h
  · intro hq h
    rw [hq]
    exact resolveSender_unknown h
  · rintro rfl
    have hres : resolveProvider params.provider ([] : List (Provider ε)) = none := rfl
    simp [safeSend, unsafeSend, sendInner, hres, failWith]
  · rintro p hps hcap rfl
    have hres : resolveSender params.«from» ([] : List Sender) = none := rfl
    simp [safeSend, unsafeSend, sendInner, hps, hcap, hres, failWith]

/-- Witness for C1 (amended): the unknown provider id `"zzz"` falls back to
the head of the non-empty provider list; with an empty provider list the
same request produces `ProviderNotFound "zzz"`; with an empty sender list a
plain request produces `SenderNotFound "default"`; the unknown sender id
`"qq"` falls back to the head of the sender list. -/
theorem C1_unknown_id_behaviour_witness :
    resolveProvider exReqUnknownProv.provider [exProviderA] = [exProviderA].head? ∧
    resolveSender exReqUnknownFrom.«from» [exSenderS] = [exSenderS].head? ∧
    safeSend ([] : List (Provider String)) [exSenderS] exReqUnknownProv =
      .failure (.providerNotFound "zzz") ∧
    safeSend [exProviderA] [] exReqPlain = .failure (.senderNotFound "default") := by
  refine ⟨?_, ?_, ?_, ?_⟩
  · exact (C1_unknown_id_behaviour [exProviderA] [exSenderS] exReqUnknownProv
      "zzz").1 rfl (by decide)
  · exact (C1_unknown_id_behaviour [exProviderA] [exSenderS] exReqUnknownFrom
      "qq").2.1 rfl (by decide)
  · exact (C1_unknown_id_behaviour ([] : List (Provider String)) [exSenderS]
      exReqUnknownProv "zzz").2.2.1 rfl |>.1
  · exact ((C1_unknown_id_behaviour [exProviderA] ([] : List Sender) exReqPlain
      "zzz").2.2.2 exProviderA rfl rfl rfl).1

/-! ### C4: attachment capability gate (corrected) -/

/-- A plain request carrying one attachment. -/
def exReqAttached : DynmailSendMailParams :=
  { exReqPlain with attachments := .list [exAttachment] }

/-- Counterexample to C4 as stated: the resolved provider has id `"a"`, but
the `AttachmentsNotSupported` failure carries the requested id
(`params.provider ?? 'default'`), here `"default"`, not the resolved
provider's id `"a"`. -/
theorem C4_counterexample :
    resolveProvider exReqAttached.provider [exProvNoAtt] = some exProvNoAtt ∧
    exProvNoAtt.id = "a" ∧
    safeSend [exProvNoAtt] [exSenderS] exReqAttached =
      .failure (.attachmentsNotSupported "default") ∧
    ("default" : String) ≠ "a" :=
  ⟨rfl, rfl, rfl, by decide⟩

/-- C4 (amended): a request carrying one or more attachments whose resolved
provider has `supportsAttachments` false fails with
`AttachmentsNotSupported` carrying the requested provider id
(`params.provider ?? 'default'`, which equals the resolved provider's id
whenever the id lookup matched), in both modes and without invoking the
transport; a request with zero attachments is never failed by the
capability check, regardless of the provider's capability. -/
theorem C4_capability_gate {ε : Type} (providers : List (Provider ε))
    (senders : List Sender) (params : DynmailSendMailParams) (p : Provider ε) :
    (resolveProvider params.provider providers = some p →
      p.options.supportsAttachments = false →
      ∀ l, params.attachments = .list l → l ≠ [] →
        safeSend providers senders params =
          .failure (.attachmentsNotSupported (params.provider.getD "default")) ∧
        unsafeSend providers senders params =
          .error (.attachmentsNotSupported (params.provider.getD "default"))) ∧
    ((params.attachments = .undef ∨ params.attachments = .list []) →
      ∀ i, safeSend providers senders params ≠
          .failure (.attachmentsNotSupported i) ∧
        unsafeSend providers senders params ≠
          .error (.attachmentsNotSupported i)) := by
  constructor
  · intro hps hsupp l hatt hl
    have hrej : attachmentsRejected p params.attachments = true := by
      rw [hatt]
      simp [attachmentsRejected, hsupp, List.length_pos, hl]
    simp [safeSend, unsafeSend, sendInner, hps, hrej, failWith]
  · intro hz i
    have hrej : ∀ q : Provider ε, attachmentsRejected q params.attachments = false := by
      intro q
      rcases hz with h | h <;> simp [attachmentsRejected, h]
    constructor
    · simp only [safeSend, sendInner]
      cases hps : resolveProvider params.provider providers with
      | none => simp [failWith]
      | some q =>
        simp only [hrej q, Bool.false_eq_true, if_false]
        cases hss : resolveSender params.«from» senders with
        | none => simp [failWith]
        | some s =>
          cases hsend : q.send (mkSendMailParams s params) <;>
            simp [mapTransport, hsend]
    · simp only [unsafeSend, sendInner]
      cases hps : resolveProvider params.provider providers with
      | none => simp [failWith]
      | some q =>
        simp only [hrej q, Bool.false_eq_true, if_false]
        cases hss : resolveSender params.«from» senders with
        | none => simp [failWith]
        | some s =>
          cases hsend : q.send (mkSendMailParams s params) <;>
            simp [mapTransport, hsend]

/-- Witness for C4 (amended): the attached request against the
non-supporting provider fails with `AttachmentsNotSupported "default"` in
both modes, and the identical request with zero attachments is not failed by
the capability check. -/
theorem C4_capability_gate_witness :
    (safeSend [exProvNoAtt] [exSenderS] exReqAttached =
        .failure (.attachmentsNotSupported "default") ∧
      unsafeSend [exProvNoAtt] [exSenderS] exReqAttached =
        .error (.attachmentsNotSupported "default")) ∧
    (safeSend [exProvNoAtt] [exSenderS] exReqPlain ≠
        .failure (.attachmentsNotSupported "a") ∧
      unsafeSend [exProvNoAtt] [exSenderS] exReqPlain ≠
        .error (.attachmentsNotSupported "a")) :=
  ⟨(C4_capability_gate [exProvNoAtt] [exSenderS] exReqAttached exProvNoAtt).1
      rfl rfl [exAttachment] rfl (by simp),
   (C4_capability_gate [exProvNoAtt] [exSenderS] exReqPlain exProvNoAtt).2
      (Or.inl rfl) "a"⟩

end Dynmail
